import Mathlib

/-!
Shallow embedding of `src/cpu/minor/pipeline.cc` (the Minor CPU pipeline
orchestrator of the gem5 fault-injection fork).

Only `pipeline.cc` is part of the verified source.  The four pipeline
stages (`Fetch1`, `Fetch2`, `Decode`, `Execute`), the inter-stage latches
(`Latch<...>`, declared in `pipeline.hh`) and the `ActivityRecorder` are
external collaborators: the orchestrator only queries them through a
boolean interface (`isDrained()`, `empty()`, `isBubble()`, `isBranch()`,
`active()`) and delegates work to them (`evaluate()`, `drain()`,
`deactivateStage()`).  They are therefore modelled at that interface:
each stage / latch is a record of the query results the orchestrator can
observe, and the combined effect of the externally-implemented calls made
during one `Pipeline::evaluate()` (fault-injection hooks, the four stage
`evaluate()`s, the five latch `evaluate()`s, `activityRecorder.evaluate()`)
is an environment argument supplying the post-call observable state.

The orchestrator logic itself — construction-time delay validation,
`Pipeline::evaluate`'s idle / drain / bubble-accounting blocks,
`Pipeline::drain`, `Pipeline::isDrained`, and the port accessors — is
translated line by line below.  Tick counts (`Tick`, `Cycles`) are
modelled as `Nat`.
-/

namespace Minor

/-- An opaque memory-port handle (`MinorCPU::MinorCPUPort &`); the
orchestrator never inspects it, so only an identity is modelled. -/
structure MinorCPUPort where
  id : Nat
deriving DecidableEq

/-- Observable interface state of the `Fetch1` stage: its drain status
(`Fetch1::isDrained()`) and its instruction-cache port
(`Fetch1::getIcachePort()`). -/
structure Fetch1State where
  drained : Bool
  icachePort : MinorCPUPort
deriving DecidableEq

/-- Observable interface state of the `Fetch2` stage. -/
structure Fetch2State where
  drained : Bool
deriving DecidableEq

/-- Observable interface state of the `Decode` stage. -/
structure DecodeState where
  drained : Bool
deriving DecidableEq

/-- Observable interface state of the `Execute` stage: drain status
(`Execute::isDrained()`), the data-cache port (`Execute::getDcachePort()`),
and whether `Execute::drain()` has told it to stop accepting new work. -/
structure ExecuteState where
  drained : Bool
  dcachePort : MinorCPUPort
  haltedIntake : Bool
deriving DecidableEq

/-- Observable interface state of a forward data latch (`f1ToF2` carrying
`ForwardLineData`, `f2ToD` and `dToE` carrying `ForwardInstData`): whether
the current output wire holds a bubble (`isBubble()` on the copied output)
and whether the latch is empty (`Latch::empty()`). -/
structure DataLatch where
  outBubble : Bool
  empty : Bool
deriving DecidableEq

/-- Observable interface state of a branch/prediction latch (`eToF1` and
`f2ToF1`, carrying `BranchData`): bubble flag and `isBranch()` flag of the
current output wire, and `Latch::empty()`. -/
structure BranchLatch where
  outBubble : Bool
  outIsBranch : Bool
  empty : Bool
deriving DecidableEq

/-- Observable state of the `ActivityRecorder`: the aggregate `active()`
flag and the five per-stage activity flags that
`activityRecorder.deactivateStage(...)` clears (stage ids `CPUStageId`,
`Fetch1StageId`, `Fetch2StageId`, `DecodeStageId`, `ExecuteStageId`). -/
structure ActivityState where
  active : Bool
  cpuStageActive : Bool
  fetch1StageActive : Bool
  fetch2StageActive : Bool
  decodeStageActive : Bool
  executeStageActive : Bool
deriving DecidableEq

/-- Effect of the five `deactivateStage` calls issued by
`Pipeline::evaluate` when idling is allowed (pipeline.cc:518-522). -/
def ActivityState.deactivateAllStages (a : ActivityState) : ActivityState :=
  { a with
    cpuStageActive := false
    fetch1StageActive := false
    fetch2StageActive := false
    decodeStageActive := false
    executeStageActive := false }

/-- The pipeline orchestrator state: the observable state of its four
stage handles and five latches, the `ActivityRecorder`, the
`needToSignalDrained` flag, whether the `Ticked` base is running
(`stop()` clears it), and the JONGHO statistics fields
(`*_bubble_ticks`, `snapshot_count`, `last_snapshot_time`). -/
structure Pipeline where
  allow_idling : Bool
  fetch1 : Fetch1State
  fetch2 : Fetch2State
  decode : DecodeState
  execute : ExecuteState
  f1ToF2 : DataLatch
  f2ToF1 : BranchLatch
  f2ToD : DataLatch
  dToE : DataLatch
  eToF1 : BranchLatch
  activity : ActivityState
  needToSignalDrained : Bool
  running : Bool
  f1ToF2_bubble_ticks : Nat
  f2ToD_bubble_ticks : Nat
  dToE_bubble_ticks : Nat
  eToF1_bubble_ticks : Nat
  f2ToF1_bubble_ticks : Nat
  snapshot_count : Nat
  last_snapshot_time : Nat
deriving DecidableEq

/-- `Pipeline::isDrained()` (pipeline.cc:598-628), translated clause for
clause.  It queries the four stages and the latches `f1ToF2`, `f2ToF1`,
`f2ToD` and `dToE`; the `eToF1` latch is never queried. -/
def Pipeline.isDrained (p : Pipeline) : Bool :=
  let fetch1_drained := p.fetch1.drained
  let fetch2_drained := p.fetch2.drained
  let decode_drained := p.decode.drained
  let execute_drained := p.execute.drained
  let f1_to_f2_drained := p.f1ToF2.empty
  let f2_to_f1_drained := p.f2ToF1.empty
  let f2_to_d_drained := p.f2ToD.empty
  let d_to_e_drained := p.dToE.empty
  fetch1_drained && fetch2_drained &&
    decode_drained && execute_drained &&
    f1_to_f2_drained && f2_to_f1_drained &&
    f2_to_d_drained && d_to_e_drained

/-- The drain test as the SPEC's words describe it (§4.3): all four
stages drained and the three forward channels empty, with the
backward/prediction channels (`f2ToF1`, `eToF1`) excluded.  This is the
claimed refinement target, to be compared against `Pipeline.isDrained`
as translated from the source. -/
def specClaimedDrainTest (p : Pipeline) : Bool :=
  p.fetch1.drained && p.fetch2.drained &&
    p.decode.drained && p.execute.drained &&
    p.f1ToF2.empty && p.f2ToD.empty && p.dToE.empty

/-- The construction parameters consumed by `Pipeline::Pipeline`
(`MinorCPUParams`); delays are `Cycles` values, modelled as `Nat`. -/
structure MinorCPUParams where
  enableIdling : Bool
  fetch1ToFetch2ForwardDelay : Nat
  fetch1ToFetch2BackwardDelay : Nat
  fetch2ToDecodeForwardDelay : Nat
  decodeToExecuteForwardDelay : Nat
  executeBranchDelay : Nat
  injectComp : String
deriving DecidableEq

/-- Which latch, if any, gets a fault-injection hook registered at
construction (pipeline.cc:125-139): dispatch on `params.injectComp`. -/
inductive ChannelId where
  | f1ToF2
  | f2ToF1
  | f2ToD
  | dToE
  | eToF1
deriving DecidableEq

/-- The `registerFi` dispatch of `Pipeline::Pipeline`
(pipeline.cc:125-139): at most one latch is armed, selected by name. -/
def armedChannel (params : MinorCPUParams) : Option ChannelId :=
  if params.injectComp = "f1ToF2" then some ChannelId.f1ToF2
  else if params.injectComp = "f2ToD" then some ChannelId.f2ToD
  else if params.injectComp = "dToE" then some ChannelId.dToE
  else if params.injectComp = "eToF1" then some ChannelId.eToF1
  else if params.injectComp = "f2ToF1" then some ChannelId.f2ToF1
  else none

/-- The construction-time validation of `Pipeline::Pipeline`
(pipeline.cc:101-119): the four `fatal(...)` guards, in source order.
`fatal` aborts before any tick can occur, modelled as `Except.error`;
on success construction completes and returns the armed channel.
Note the source checks `fetch1ToFetch2ForwardDelay`,
`fetch2ToDecodeForwardDelay`, `decodeToExecuteForwardDelay` and
`executeBranchDelay` only: `fetch1ToFetch2BackwardDelay` (the `f2ToF1`
latch delay, pipeline.cc:70-71) has no guard. -/
def Pipeline.construct (params : MinorCPUParams) :
    Except String (Option ChannelId) :=
  if params.fetch1ToFetch2ForwardDelay < 1 then
    Except.error "fetch1ToFetch2ForwardDelay must be >= 1"
  else if params.fetch2ToDecodeForwardDelay < 1 then
    Except.error "fetch2ToDecodeForwardDelay must be >= 1"
  else if params.decodeToExecuteForwardDelay < 1 then
    Except.error "decodeToExecuteForwardDelay must be >= 1"
  else if params.executeBranchDelay < 1 then
    Except.error "executeBranchDelay must be >= 1"
  else
    Except.ok (armedChannel params)

/-- `Fetch1::getIcachePort()` at the interface level. -/
def Fetch1State.getIcachePort (f : Fetch1State) : MinorCPUPort :=
  f.icachePort

/-- `Execute::getDcachePort()` at the interface level. -/
def ExecuteState.getDcachePort (e : ExecuteState) : MinorCPUPort :=
  e.dcachePort

/-- `Pipeline::getInstPort()` (pipeline.cc:552-556): returns
`fetch1.getIcachePort()`. -/
def Pipeline.getInstPort (p : Pipeline) : MinorCPUPort :=
  p.fetch1.getIcachePort

/-- `Pipeline::getDataPort()` (pipeline.cc:558-562): returns
`execute.getDcachePort()`. -/
def Pipeline.getDataPort (p : Pipeline) : MinorCPUPort :=
  p.execute.getDcachePort

/-- Modelled from the spec: `Execute::drain()` is not part of the source
under verification (only `execute.hh`'s caller side appears in
`pipeline.cc`).  Spec §4.3 says that on the drain request the
orchestrator "instructs the execute stage to stop accepting new committed
work (drain its internal queues naturally) but does not stop ticking", so
the call is modelled as raising the intake-halt flag and leaving the
observable drain status unchanged. -/
def ExecuteState.drain (e : ExecuteState) : ExecuteState :=
  { e with haltedIntake := true }

/-- `Pipeline::drain()` (pipeline.cc:570-584): calls `execute.drain()`,
then computes `drained = isDrained()`, sets
`needToSignalDrained = !drained` (so it is not accidentally set when
pre-drained), and returns `drained`. -/
def Pipeline.drain (p : Pipeline) : Bool × Pipeline :=
  let p1 : Pipeline := { p with execute := p.execute.drain }
  let drained := p1.isDrained
  (drained, { p1 with needToSignalDrained := !drained })

/-- Environment of one `Pipeline::evaluate()` call: the current simulated
tick (`curTick()`), and the combined effect of the externally-implemented
calls made during the call — the fault-injection hooks
(`Vulnerable::evaluate()`, `cpu.injectFaultRegFunc()`, the LSQ and FU
hooks), the four stage `evaluate()`s (pipeline.cc:339-342), the five
latch `evaluate()`s (pipeline.cc:348-352) and
`activityRecorder.evaluate()` (pipeline.cc:505) — given as the
observable stage / latch / activity state those calls leave behind. -/
structure EvalEnv where
  curTick : Nat
  fetch1 : Fetch1State
  fetch2 : Fetch2State
  decode : DecodeState
  execute : ExecuteState
  f1ToF2 : DataLatch
  f2ToF1 : BranchLatch
  f2ToD : DataLatch
  dToE : DataLatch
  eToF1 : BranchLatch
  activity : ActivityState
deriving DecidableEq

/-- The pipeline state after the external phase of one `evaluate()` call
(fault hooks, stage evaluations, latch evaluations, activity-recorder
evaluation): the externally-owned observable state is replaced by the
environment's, the orchestrator-owned fields are untouched. -/
def Pipeline.afterExternalPhase (p : Pipeline) (env : EvalEnv) : Pipeline :=
  { p with
    fetch1 := env.fetch1
    fetch2 := env.fetch2
    decode := env.decode
    execute := env.execute
    f1ToF2 := env.f1ToF2
    f2ToF1 := env.f2ToF1
    f2ToD := env.f2ToD
    dToE := env.dToE
    eToF1 := env.eToF1
    activity := env.activity }

/-- Observable outcome of one `Pipeline::evaluate()` call: the new state,
how many times `cpu.signalDrainDone()` was called, whether `stop()` was
called from the idle block (pipeline.cc:511) and from the drain block
(pipeline.cc:532), and how many `deactivateStage` calls were issued. -/
structure EvalOut where
  state : Pipeline
  drainDoneSignals : Nat
  idleStop : Bool
  drainStop : Bool
  deactivateCalls : Nat
deriving DecidableEq

/-- `Pipeline::evaluate()` (pipeline.cc:236-550), translated block for
block.

1. pipeline.cc:241-245 — the output wires of the five latches are copied
   at entry, BEFORE the fault-injection hooks and stage evaluations:
   the snapshots are `p`'s latch outputs (the `*_output` locals).
2. pipeline.cc:316-342 / 348-352 / 505 — fault hooks, stage evaluations
   in reverse pipeline order, latch evaluations and
   `activityRecorder.evaluate()` are external calls, summarised by
   `afterExternalPhase` (their ordering is modelled by `evaluateTrace`
   below).  Trace printing (`DTRACE` blocks) has no simulation effect
   and is omitted.
3. pipeline.cc:507-523 — if `allow_idling`: `stop()` when
   `!activityRecorder.active() && !needToSignalDrained`, then the five
   `deactivateStage` calls, unconditionally.
4. pipeline.cc:525-534 — if `needToSignalDrained` and `isDrained()`:
   `cpu.signalDrainDone()`, clear the flag, `stop()`.
5. pipeline.cc:537-549 — bubble accounting against the entry snapshots:
   each latch whose snapshot was a bubble (for the branch latches: bubble
   or not a branch) gains `curTick() - last_snapshot_time`; then
   `++snapshot_count` and `last_snapshot_time = curTick()`. -/
def Pipeline.evaluate (p : Pipeline) (env : EvalEnv) : EvalOut :=
  let f1ToF2_output := p.f1ToF2
  let f2ToD_output := p.f2ToD
  let dToE_output := p.dToE
  let eToF1_output := p.eToF1
  let f2ToF1_output := p.f2ToF1
  let p1 := p.afterExternalPhase env
  let idleStop := p1.allow_idling &&
    (!p1.activity.active && !p1.needToSignalDrained)
  let activity2 := if p1.allow_idling then
    p1.activity.deactivateAllStages else p1.activity
  let deactivateCalls := if p1.allow_idling then 5 else 0
  let drainStop := p1.needToSignalDrained && p1.isDrained
  let signals := if drainStop then 1 else 0
  let need2 := if drainStop then false else p1.needToSignalDrained
  let dt := env.curTick - p.last_snapshot_time
  { state := { p1 with
      activity := activity2
      needToSignalDrained := need2
      running := p1.running && !(idleStop || drainStop)
      f1ToF2_bubble_ticks :=
        p.f1ToF2_bubble_ticks + (if f1ToF2_output.outBubble then dt else 0)
      f2ToD_bubble_ticks :=
        p.f2ToD_bubble_ticks + (if f2ToD_output.outBubble then dt else 0)
      dToE_bubble_ticks :=
        p.dToE_bubble_ticks + (if dToE_output.outBubble then dt else 0)
      eToF1_bubble_ticks :=
        p.eToF1_bubble_ticks +
          (if eToF1_output.outBubble || !eToF1_output.outIsBranch
           then dt else 0)
      f2ToF1_bubble_ticks :=
        p.f2ToF1_bubble_ticks +
          (if f2ToF1_output.outBubble || !f2ToF1_output.outIsBranch
           then dt else 0)
      snapshot_count := p.snapshot_count + 1
      last_snapshot_time := env.curTick }
    drainDoneSignals := signals
    idleStop := idleStop
    drainStop := drainStop
    deactivateCalls := deactivateCalls }

/-- Stage identifiers, in pipeline order. -/
inductive StageId where
  | fetch1
  | fetch2
  | decode
  | execute
deriving DecidableEq

/-- The observable events of one `Pipeline::evaluate()` call, in the
order the source emits them.  `applyChannelFaultHooks b` is the
`Vulnerable::evaluate()` call (pipeline.cc:316), which applies the armed
latch fault hooks exactly when one is armed for the current tick
(`b = true`); the register / LSQ / FU hooks (pipeline.cc:318-327) get
their own events. -/
inductive EvEvent where
  | snapshotOutputs
  | applyChannelFaultHooks (applied : Bool)
  | applyRegFaultHook
  | applyLsqFaultHook
  | applyFuFaultHook
  | stageEval (s : StageId)
  | channelAdvance (c : ChannelId)
  | activityRecorderEvaluate
  | idlePolicy
  | drainCheck
  | bubbleAccounting
deriving DecidableEq

/-- Whether an event is one of the four stage evaluations. -/
def EvEvent.isStageEval : EvEvent → Bool
  | EvEvent.stageEval _ => true
  | _ => false

/-- Whether an event is one of the five latch `evaluate()` calls
(the channel advance promoting next-cycle payloads). -/
def EvEvent.isChannelAdvance : EvEvent → Bool
  | EvEvent.channelAdvance _ => true
  | _ => false

/-- The event sequence of one `Pipeline::evaluate()` call
(pipeline.cc:236-550), in source order: output-wire snapshots
(241-245), `Vulnerable::evaluate()` (316), `cpu.injectFaultRegFunc()`
(318), the LSQ hooks (321-322), the FU hook (326-327), the four stage
evaluations in reverse pipeline order (339-342), the five latch
evaluations (348-352), `activityRecorder.evaluate()` (505), the idle
block (507-523), the drain block (525-534) and the bubble accounting
(537-549).  `armed` says whether a latch fault hook is armed for this
tick. -/
def evaluateTrace (armed : Bool) : List EvEvent :=
  [EvEvent.snapshotOutputs,
   EvEvent.applyChannelFaultHooks armed,
   EvEvent.applyRegFaultHook,
   EvEvent.applyLsqFaultHook,
   EvEvent.applyFuFaultHook,
   EvEvent.stageEval StageId.execute,
   EvEvent.stageEval StageId.decode,
   EvEvent.stageEval StageId.fetch2,
   EvEvent.stageEval StageId.fetch1,
   EvEvent.channelAdvance ChannelId.f1ToF2,
   EvEvent.channelAdvance ChannelId.f2ToF1,
   EvEvent.channelAdvance ChannelId.f2ToD,
   EvEvent.channelAdvance ChannelId.dToE,
   EvEvent.channelAdvance ChannelId.eToF1,
   EvEvent.activityRecorderEvaluate,
   EvEvent.idlePolicy,
   EvEvent.drainCheck,
   EvEvent.bubbleAccounting]

/-- Projection keeping only stage-evaluation events. -/
def stageOf : EvEvent → Option StageId
  | EvEvent.stageEval s => some s
  | _ => none

/-! ### Concrete fixtures

Concrete states used by the counterexamples and witnesses below. -/

/-- A fully-drained pipeline state: every stage reports drained, every
latch is empty with a bubble on its output wire, no activity recorded,
no pending drain, idling allowed, `Ticked` running. -/
def drainedPipeline : Pipeline where
  allow_idling := true
  fetch1 := { drained := true, icachePort := { id := 1 } }
  fetch2 := { drained := true }
  decode := { drained := true }
  execute := { drained := true, dcachePort := { id := 2 }, haltedIntake := false }
  f1ToF2 := { outBubble := true, empty := true }
  f2ToF1 := { outBubble := true, outIsBranch := false, empty := true }
  f2ToD := { outBubble := true, empty := true }
  dToE := { outBubble := true, empty := true }
  eToF1 := { outBubble := true, outIsBranch := false, empty := true }
  activity := { active := false, cpuStageActive := false,
                fetch1StageActive := false, fetch2StageActive := false,
                decodeStageActive := false, executeStageActive := false }
  needToSignalDrained := false
  running := true
  f1ToF2_bubble_ticks := 0
  f2ToD_bubble_ticks := 0
  dToE_bubble_ticks := 0
  eToF1_bubble_ticks := 0
  f2ToF1_bubble_ticks := 0
  snapshot_count := 0
  last_snapshot_time := 0

/-- Environment fixture: the external phase of an `evaluate()` call at
tick 10 that leaves the observable state exactly as in
`drainedPipeline`. -/
def drainedEnv : EvalEnv where
  curTick := 10
  fetch1 := drainedPipeline.fetch1
  fetch2 := drainedPipeline.fetch2
  decode := drainedPipeline.decode
  execute := drainedPipeline.execute
  f1ToF2 := drainedPipeline.f1ToF2
  f2ToF1 := drainedPipeline.f2ToF1
  f2ToD := drainedPipeline.f2ToD
  dToE := drainedPipeline.dToE
  eToF1 := drainedPipeline.eToF1
  activity := drainedPipeline.activity

/-- Environment fixture in which the activity recorder reports the
pipeline active, with the fetch stages' activity flags raised. -/
def busyEnv : EvalEnv :=
  { drainedEnv with
    activity := { active := true, cpuStageActive := false,
                  fetch1StageActive := true, fetch2StageActive := true,
                  decodeStageActive := false, executeStageActive := false } }

/-! ### Helper lemmas -/

/-- Unfolding of `Pipeline.isDrained` into the conjunction of its eight
queried status bits. -/
theorem isDrained_iff_aux (p : Pipeline) :
    p.isDrained = true ↔
      (p.fetch1.drained = true ∧ p.fetch2.drained = true ∧
       p.decode.drained = true ∧ p.execute.drained = true ∧
       p.f1ToF2.empty = true ∧ p.f2ToF1.empty = true ∧
       p.f2ToD.empty = true ∧ p.dToE.empty = true) := by
  simp [Pipeline.isDrained, and_assoc]

/-- The external phase leaves the orchestrator-owned pending-drain flag
untouched. -/
theorem afterExternalPhase_need (p : Pipeline) (env : EvalEnv) :
    (p.afterExternalPhase env).needToSignalDrained = p.needToSignalDrained :=
  rfl

/-- The external phase leaves the running flag untouched. -/
theorem afterExternalPhase_running (p : Pipeline) (env : EvalEnv) :
    (p.afterExternalPhase env).running = p.running :=
  rfl

/-- The external phase leaves the idling configuration untouched. -/
theorem afterExternalPhase_idling (p : Pipeline) (env : EvalEnv) :
    (p.afterExternalPhase env).allow_idling = p.allow_idling :=
  rfl

/-- After the external phase the activity-recorder state is the one the
environment's `activityRecorder.evaluate()` produced. -/
theorem afterExternalPhase_activity (p : Pipeline) (env : EvalEnv) :
    (p.afterExternalPhase env).activity = env.activity :=
  rfl

/-- `Execute::drain()` leaves the observable drain status of every stage
and latch unchanged, so the drain test is unaffected by it. -/
theorem isDrained_after_executeDrain (p : Pipeline) :
    Pipeline.isDrained { p with execute := p.execute.drain } = p.isDrained :=
  rfl

/-! ### Claims -/

/-- Claim C1, counterexample: in a state in which all four stages are
drained and all three forward latches are empty but the backward
prediction latch `f2ToF1` is non-empty, the spec's drain conjunction
holds yet `Pipeline::isDrained` returns false — the source includes
`f2ToF1.empty()` in the conjunction, so backward channels are not all
excluded. -/
theorem isDrained_differs_from_spec_drain_test :
    specClaimedDrainTest
      { drainedPipeline with
        f2ToF1 := { outBubble := true, outIsBranch := false, empty := false } }
      = true ∧
    Pipeline.isDrained
      { drainedPipeline with
        f2ToF1 := { outBubble := true, outIsBranch := false, empty := false } }
      = false := by
  exact ⟨rfl, rfl⟩

/-- Claim C1, amended: `Pipeline::isDrained` returns true iff all four
stages report drained and the latches `f1ToF2`, `f2ToF1` (backward
prediction), `f2ToD` and `dToE` all report empty; only the `eToF1`
backward branch channel is excluded from the conjunction (its `empty()`
is never queried, so the result is independent of it). -/
theorem isDrained_characterization (p : Pipeline) :
    (p.isDrained = true ↔
      (p.fetch1.drained = true ∧ p.fetch2.drained = true ∧
       p.decode.drained = true ∧ p.execute.drained = true ∧
       p.f1ToF2.empty = true ∧ p.f2ToF1.empty = true ∧
       p.f2ToD.empty = true ∧ p.dToE.empty = true)) ∧
    (∀ b : Bool,
      Pipeline.isDrained { p with eToF1 := { p.eToF1 with empty := b } } =
        p.isDrained) := by
  exact ⟨isDrained_iff_aux p, fun b => rfl⟩

/-- Claim C2, counterexample: a configured delay of 0 on the
front-end-2→front-end-1 backward channel (`fetch1ToFetch2BackwardDelay`,
the `f2ToF1` latch) does NOT cause a construction-time error: with all
other delays at 1, `Pipeline::Pipeline` completes without hitting any
`fatal` guard. -/
theorem construct_accepts_zero_backward_delay :
    ({ enableIdling := true
       fetch1ToFetch2ForwardDelay := 1
       fetch1ToFetch2BackwardDelay := 0
       fetch2ToDecodeForwardDelay := 1
       decodeToExecuteForwardDelay := 1
       executeBranchDelay := 1
       injectComp := "" : MinorCPUParams }).fetch1ToFetch2BackwardDelay < 1 ∧
    Pipeline.construct
      { enableIdling := true
        fetch1ToFetch2ForwardDelay := 1
        fetch1ToFetch2BackwardDelay := 0
        fetch2ToDecodeForwardDelay := 1
        decodeToExecuteForwardDelay := 1
        executeBranchDelay := 1
        injectComp := "" } = Except.ok none := by
  exact ⟨by decide, rfl⟩

/-- Claim C2, amended: construction fails with a fatal error iff one of
the FOUR guarded delays (`fetch1ToFetch2ForwardDelay`,
`fetch2ToDecodeForwardDelay`, `decodeToExecuteForwardDelay`,
`executeBranchDelay`) is below 1; the fifth named channel's delay
(`fetch1ToFetch2BackwardDelay`, for the backward `f2ToF1` channel) is
not validated and the outcome is independent of it. -/
theorem construct_validates_exactly_four_delays (params : MinorCPUParams) :
    ((params.fetch1ToFetch2ForwardDelay < 1 ∨
      params.fetch2ToDecodeForwardDelay < 1 ∨
      params.decodeToExecuteForwardDelay < 1 ∨
      params.executeBranchDelay < 1) ↔
      ∃ msg, Pipeline.construct params = Except.error msg) ∧
    (∀ d, Pipeline.construct { params with fetch1ToFetch2BackwardDelay := d } =
      Pipeline.construct params) := by
  constructor
  · by_cases h1 : params.fetch1ToFetch2ForwardDelay < 1 <;>
      by_cases h2 : params.fetch2ToDecodeForwardDelay < 1 <;>
      by_cases h3 : params.decodeToExecuteForwardDelay < 1 <;>
      by_cases h4 : params.executeBranchDelay < 1 <;>
      simp [Pipeline.construct, h1, h2, h3, h4]
  · intro d; rfl

/-- Claim C3, counterexample: the instruction-port accessor is not a
passthrough to the execute stage: two pipelines with identical execute
stages but different fetch1 instruction-cache ports yield different
`getInstPort()` results, so the returned handle is fetch1's, not
execute's. -/
theorem getInstPort_not_from_execute :
    drainedPipeline.execute =
      ({ drainedPipeline with
         fetch1 := { drained := true, icachePort := { id := 7 } } } :
        Pipeline).execute ∧
    Pipeline.getInstPort drainedPipeline ≠
      Pipeline.getInstPort
        { drainedPipeline with
          fetch1 := { drained := true, icachePort := { id := 7 } } } := by
  exact ⟨rfl, by decide⟩

/-- Claim C3, amended: the data-port accessor is a passthrough to the
execute stage (`execute.getDcachePort()`), but the instruction-port
accessor is a passthrough to the fetch1 stage (`fetch1.getIcachePort()`);
each accessor returns the handle unmodified and depends only on its own
stage. -/
theorem port_accessor_characterization (p q : Pipeline) :
    Pipeline.getInstPort p = p.fetch1.icachePort ∧
    Pipeline.getDataPort p = p.execute.dcachePort ∧
    (p.fetch1 = q.fetch1 → Pipeline.getInstPort p = Pipeline.getInstPort q) ∧
    (p.execute = q.execute → Pipeline.getDataPort p = Pipeline.getDataPort q) := by
  refine ⟨rfl, rfl, fun h => ?_, fun h => ?_⟩ <;>
    simp [Pipeline.getInstPort, Pipeline.getDataPort,
      Fetch1State.getIcachePort, ExecuteState.getDcachePort, h]

/-- Witness for `port_accessor_characterization` at the concrete fixture,
discharging both equality hypotheses with `rfl`. -/
theorem port_accessor_characterization_witness :
    Pipeline.getInstPort drainedPipeline =
      drainedPipeline.fetch1.icachePort ∧
    Pipeline.getInstPort drainedPipeline =
      Pipeline.getInstPort drainedPipeline ∧
    Pipeline.getDataPort drainedPipeline =
      Pipeline.getDataPort drainedPipeline :=
  ⟨(port_accessor_characterization drainedPipeline drainedPipeline).1,
   (port_accessor_characterization drainedPipeline drainedPipeline).2.2.1 rfl,
   (port_accessor_characterization drainedPipeline drainedPipeline).2.2.2 rfl⟩

/-- Claim C4: in every `evaluate()` call the four stage evaluations
occur in reverse pipeline order — execute, decode, front-end-2,
front-end-1 — and every latch `evaluate()` (channel advance) occurs
strictly after every stage evaluation, so no channel advance is
interleaved among the stage evaluations. -/
theorem evaluateTrace_stage_order (armed : Bool) :
    ((evaluateTrace armed).filterMap stageOf =
      [StageId.execute, StageId.decode, StageId.fetch2, StageId.fetch1]) ∧
    (∀ i j : Fin (evaluateTrace armed).length,
      ((evaluateTrace armed).get i).isStageEval = true →
      ((evaluateTrace armed).get j).isChannelAdvance = true →
      i < j) := by
  cases armed <;> exact ⟨rfl, by decide⟩

/-- Witness for `evaluateTrace_stage_order`: position 5 (the execute
evaluation) is a stage evaluation, position 9 (the `f1ToF2` latch
evaluation) is a channel advance, and the theorem places the former
strictly before the latter. -/
theorem evaluateTrace_stage_order_witness :
    ((evaluateTrace true).get ⟨5, by decide⟩).isStageEval = true ∧
    ((evaluateTrace true).get ⟨9, by decide⟩).isChannelAdvance = true ∧
    (⟨5, by decide⟩ : Fin (evaluateTrace true).length) < ⟨9, by decide⟩ :=
  ⟨by decide, by decide,
   (evaluateTrace_stage_order true).2 ⟨5, by decide⟩ ⟨9, by decide⟩
     (by decide) (by decide)⟩

/-- Claim C5: in every `evaluate()` call with a pending drain, drain
completion is tested against the post-evaluation state; when it holds,
`cpu.signalDrainDone()` is called exactly once, the pending flag is
cleared and `stop()` halts ticking; when it does not hold, no completion
is signalled and the flag stays set. -/
theorem evaluate_drain_completion (p : Pipeline) (env : EvalEnv)
    (hpend : p.needToSignalDrained = true) :
    ((p.afterExternalPhase env).isDrained = true →
      (p.evaluate env).drainDoneSignals = 1 ∧
      (p.evaluate env).state.needToSignalDrained = false ∧
      (p.evaluate env).drainStop = true ∧
      (p.evaluate env).state.running = false) ∧
    ((p.afterExternalPhase env).isDrained = false →
      (p.evaluate env).drainDoneSignals = 0 ∧
      (p.evaluate env).state.needToSignalDrained = true ∧
      (p.evaluate env).drainStop = false) := by
  constructor <;> intro h <;>
    simp [Pipeline.evaluate, h, hpend, afterExternalPhase_need,
      afterExternalPhase_running]

/-- Witness for `evaluate_drain_completion`: a pipeline with a pending
drain whose external phase leaves everything drained signals completion
once, clears the flag and stops. -/
theorem evaluate_drain_completion_witness :
    ({ drainedPipeline with
        needToSignalDrained := true : Pipeline }).needToSignalDrained = true ∧
    (({ drainedPipeline with
        needToSignalDrained := true : Pipeline }).afterExternalPhase
          drainedEnv).isDrained = true ∧
    (Pipeline.evaluate
      { drainedPipeline with needToSignalDrained := true }
      drainedEnv).drainDoneSignals = 1 ∧
    (Pipeline.evaluate
      { drainedPipeline with needToSignalDrained := true }
      drainedEnv).state.needToSignalDrained = false ∧
    (Pipeline.evaluate
      { drainedPipeline with needToSignalDrained := true }
      drainedEnv).state.running = false :=
  have h := (evaluate_drain_completion
    { drainedPipeline with needToSignalDrained := true }
    drainedEnv rfl).1 (by decide)
  ⟨rfl, by decide, h.1, h.2.1, h.2.2.2⟩

/-- Claim C6: `Pipeline::drain()` returns exactly the drain status the
pipeline has at the time of the call (the execute stage's drain entry
only halts intake and does not change its observable drain status), and
in the pre-drained case completion is reported immediately by the true
return value with the pending flag left unset, while in the undrained
case the flag is set. -/
theorem drain_predrained_guard (p : Pipeline) :
    (p.drain).1 = p.isDrained ∧
    (p.isDrained = true → (p.drain).2.needToSignalDrained = false) ∧
    (p.isDrained = false → (p.drain).2.needToSignalDrained = true) := by
  refine ⟨rfl, fun h => ?_, fun h => ?_⟩ <;>
    simp [Pipeline.drain, isDrained_after_executeDrain, h]

/-- Witness for `drain_predrained_guard`: on the fully-drained fixture,
`drain()` returns true and leaves the pending flag unset. -/
theorem drain_predrained_guard_witness :
    (Pipeline.drain drainedPipeline).1 = drainedPipeline.isDrained ∧
    Pipeline.isDrained drainedPipeline = true ∧
    (Pipeline.drain drainedPipeline).2.needToSignalDrained = false :=
  ⟨(drain_predrained_guard drainedPipeline).1, by decide,
   (drain_predrained_guard drainedPipeline).2.1 (by decide)⟩

/-- Claim C7, counterexample: with idling enabled but the activity
recorder reporting the pipeline active (and no drain pending), the call
neither idles nor stops — yet all five `deactivateStage` calls are
issued and the raised fetch1 activity flag is force-cleared.  The
deactivation is NOT tied to the orchestrator actually idling. -/
theorem evaluate_deactivates_without_idling :
    (Pipeline.evaluate drainedPipeline busyEnv).idleStop = false ∧
    (Pipeline.evaluate drainedPipeline busyEnv).drainStop = false ∧
    busyEnv.activity.fetch1StageActive = true ∧
    (Pipeline.evaluate drainedPipeline busyEnv).state.activity.fetch1StageActive
      = false ∧
    (Pipeline.evaluate drainedPipeline busyEnv).deactivateCalls = 5 := by
  decide

/-- Claim C7, amended: with idling enabled, the call suspends ticking iff
the activity recorder reports inactivity and no drain is pending; the
per-stage activity flags, however, are deactivated on EVERY `evaluate()`
call with idling enabled, whether or not the orchestrator idles. -/
theorem evaluate_idle_policy (p : Pipeline) (env : EvalEnv)
    (h : p.allow_idling = true) :
    ((p.evaluate env).idleStop =
      (!env.activity.active && !p.needToSignalDrained)) ∧
    ((env.activity.active = false ∧ p.needToSignalDrained = false) →
      (p.evaluate env).state.running = false) ∧
    (p.evaluate env).deactivateCalls = 5 ∧
    (p.evaluate env).state.activity = env.activity.deactivateAllStages := by
  refine ⟨?_, ?_, ?_, ?_⟩
  · simp [Pipeline.evaluate, h, afterExternalPhase_idling,
      afterExternalPhase_activity, afterExternalPhase_need]
  · rintro ⟨h1, h2⟩
    simp [Pipeline.evaluate, h, h1, h2, afterExternalPhase_idling,
      afterExternalPhase_activity, afterExternalPhase_need,
      afterExternalPhase_running]
  · simp [Pipeline.evaluate, h, afterExternalPhase_idling]
  · simp [Pipeline.evaluate, h, afterExternalPhase_idling,
      afterExternalPhase_activity]

/-- Witness for `evaluate_idle_policy` on the drained fixture and the
active environment: idling is enabled and five deactivations are
issued. -/
theorem evaluate_idle_policy_witness :
    drainedPipeline.allow_idling = true ∧
    (Pipeline.evaluate drainedPipeline busyEnv).deactivateCalls = 5 :=
  ⟨rfl, (evaluate_idle_policy drainedPipeline busyEnv rfl).2.2.1⟩

/-- Claim C8: on a tick with an armed fault-injection hook, the hook
application (`Vulnerable::evaluate()`, trace position 1) precedes every
stage evaluation in the call. -/
theorem evaluate_fault_hooks_before_stages (armed : Bool)
    (h : armed = true) :
    (evaluateTrace armed)[1]? =
      some (EvEvent.applyChannelFaultHooks true) ∧
    ∀ j : Fin (evaluateTrace armed).length,
      ((evaluateTrace armed).get j).isStageEval = true → 1 < j.val := by
  subst h
  exact ⟨rfl, by decide⟩

/-- Witness for `evaluate_fault_hooks_before_stages` at `armed = true`:
the execute-stage evaluation sits at position 5, after the hook
application at position 1. -/
theorem evaluate_fault_hooks_before_stages_witness :
    (evaluateTrace true)[1]? =
      some (EvEvent.applyChannelFaultHooks true) ∧
    ((evaluateTrace true).get ⟨5, by decide⟩).isStageEval = true ∧
    1 < (5 : Nat) :=
  ⟨(evaluate_fault_hooks_before_stages true rfl).1, by decide,
   (evaluate_fault_hooks_before_stages true rfl).2 ⟨5, by decide⟩ (by decide)⟩

/-- Claim C9: for each forward data latch whose entry snapshot was a
bubble, the call adds the ticks elapsed since the previous evaluation to
that latch's bubble-duration counter, and leaves the counter unchanged
otherwise; the accounting alters neither the latch contents (the
post-call latch state is exactly what the external evaluation produced)
nor any other simulation state (the entry latch snapshots influence
nothing but the counters). -/
theorem evaluate_bubble_accounting (p : Pipeline) (env : EvalEnv)
    (h : p.last_snapshot_time ≤ env.curTick) :
    ((p.f1ToF2.outBubble = true →
        (p.evaluate env).state.f1ToF2_bubble_ticks =
          p.f1ToF2_bubble_ticks + (env.curTick - p.last_snapshot_time)) ∧
     (p.f1ToF2.outBubble = false →
        (p.evaluate env).state.f1ToF2_bubble_ticks =
          p.f1ToF2_bubble_ticks)) ∧
    ((p.f2ToD.outBubble = true →
        (p.evaluate env).state.f2ToD_bubble_ticks =
          p.f2ToD_bubble_ticks + (env.curTick - p.last_snapshot_time)) ∧
     (p.f2ToD.outBubble = false →
        (p.evaluate env).state.f2ToD_bubble_ticks =
          p.f2ToD_bubble_ticks)) ∧
    ((p.dToE.outBubble = true →
        (p.evaluate env).state.dToE_bubble_ticks =
          p.dToE_bubble_ticks + (env.curTick - p.last_snapshot_time)) ∧
     (p.dToE.outBubble = false →
        (p.evaluate env).state.dToE_bubble_ticks =
          p.dToE_bubble_ticks)) ∧
    ((p.evaluate env).state.f1ToF2 = env.f1ToF2 ∧
     (p.evaluate env).state.f2ToD = env.f2ToD ∧
     (p.evaluate env).state.dToE = env.dToE) ∧
    (∀ a b c : DataLatch, ∀ d e : BranchLatch,
      (Pipeline.evaluate
        { p with f1ToF2 := a, f2ToD := b, dToE := c, f2ToF1 := d, eToF1 := e }
        env).state.needToSignalDrained =
        (p.evaluate env).state.needToSignalDrained ∧
      (Pipeline.evaluate
        { p with f1ToF2 := a, f2ToD := b, dToE := c, f2ToF1 := d, eToF1 := e }
        env).state.running = (p.evaluate env).state.running ∧
      (Pipeline.evaluate
        { p with f1ToF2 := a, f2ToD := b, dToE := c, f2ToF1 := d, eToF1 := e }
        env).state.activity = (p.evaluate env).state.activity ∧
      (Pipeline.evaluate
        { p with f1ToF2 := a, f2ToD := b, dToE := c, f2ToF1 := d, eToF1 := e }
        env).drainDoneSignals = (p.evaluate env).drainDoneSignals ∧
      (Pipeline.evaluate
        { p with f1ToF2 := a, f2ToD := b, dToE := c, f2ToF1 := d, eToF1 := e }
        env).idleStop = (p.evaluate env).idleStop ∧
      (Pipeline.evaluate
        { p with f1ToF2 := a, f2ToD := b, dToE := c, f2ToF1 := d, eToF1 := e }
        env).drainStop = (p.evaluate env).drainStop) := by
  refine ⟨⟨fun hb => ?_, fun hb => ?_⟩, ⟨fun hb => ?_, fun hb => ?_⟩,
    ⟨fun hb => ?_, fun hb => ?_⟩, ⟨rfl, rfl, rfl⟩,
    fun a b c d e => ⟨rfl, rfl, rfl, rfl, rfl, rfl⟩⟩ <;>
    simp [Pipeline.evaluate, hb]

/-- Witness for `evaluate_bubble_accounting` on the drained fixture: the
`f1ToF2` snapshot is a bubble and the counter gains the 10 elapsed
ticks. -/
theorem evaluate_bubble_accounting_witness :
    drainedPipeline.last_snapshot_time ≤ drainedEnv.curTick ∧
    drainedPipeline.f1ToF2.outBubble = true ∧
    (Pipeline.evaluate drainedPipeline drainedEnv).state.f1ToF2_bubble_ticks =
      drainedPipeline.f1ToF2_bubble_ticks +
        (drainedEnv.curTick - drainedPipeline.last_snapshot_time) :=
  ⟨by decide, rfl,
   ((evaluate_bubble_accounting drainedPipeline drainedEnv
      (by decide)).1).1 rfl⟩

/-- Claim C10: with idling disabled, an `evaluate()` call never stops
ticking for inactivity and never deactivates any per-stage activity flag
(the recorder state stays exactly what the external phase produced); the
only stop is the drain-completion one, which fires iff a drain was
pending and the post-evaluation state is drained. -/
theorem evaluate_no_idling (p : Pipeline) (env : EvalEnv)
    (h : p.allow_idling = false) :
    (p.evaluate env).idleStop = false ∧
    (p.evaluate env).deactivateCalls = 0 ∧
    (p.evaluate env).state.activity = env.activity ∧
    ((p.evaluate env).drainStop = true ↔
      (p.needToSignalDrained = true ∧
        (p.afterExternalPhase env).isDrained = true)) ∧
    (p.evaluate env).state.running =
      (p.running && !(p.evaluate env).drainStop) := by
  refine ⟨?_, ?_, ?_, ?_, ?_⟩ <;>
    simp [Pipeline.evaluate, h, afterExternalPhase_idling,
      afterExternalPhase_need, afterExternalPhase_activity,
      afterExternalPhase_running, Bool.and_eq_true]

/-- Witness for `evaluate_no_idling` on the drained fixture with idling
disabled: no idle stop and no deactivation calls are issued. -/
theorem evaluate_no_idling_witness :
    ({ drainedPipeline with allow_idling := false : Pipeline }).allow_idling
      = false ∧
    (Pipeline.evaluate { drainedPipeline with allow_idling := false }
      busyEnv).idleStop = false ∧
    (Pipeline.evaluate { drainedPipeline with allow_idling := false }
      busyEnv).deactivateCalls = 0 :=
  ⟨rfl,
   (evaluate_no_idling { drainedPipeline with allow_idling := false }
     busyEnv rfl).1,
   (evaluate_no_idling { drainedPipeline with allow_idling := false }
     busyEnv rfl).2.1⟩

end Minor
